import Mathlib

/-!
Shallow embedding of the system-bridge backend update core:
the module fan-out coordinator (`systembridgebackend/modules/__init__.py`),
the generic worker scheduler (`handlers/threads/update.py`), and the
orchestrator / media thread (`handlers/data.py`, `handlers/threads/media.py`).
-/

namespace Modules

/-- A module binding as held in `ModulesUpdate._classes`: the registered
name, whether the wrapped class exposes a `sensors` attribute (checked by
`hasattr` in the source), and the current value of that attribute. The
per-module `update_all_data` collection routines are opaque collaborators. -/
structure ModuleCls where
  name : String
  hasSensorsAttr : Bool
  sensors : Option Nat
deriving DecidableEq, Repr

/-- Observable effects of one `ModulesUpdate.update_data` call. `publish`
is a call of `self._updated_callback`; `inject` is the assignment
`module_class.cls.sensors = sensors_data`; `skipRunning` is the
skip-if-running branch; `launch` is a successful `asyncio.create_task`;
`launchFailed` is the except branch around `create_task`; `stagger` is the
`await asyncio.sleep(1)` between launches. -/
inductive Ev where
  | publish (name : String) (payload : Nat)
  | inject (name : String) (snapshot : Nat)
  | skipRunning (name : String)
  | launch (name : String)
  | launchFailed (name : String)
  | stagger
deriving DecidableEq, Repr

/-- State of a `ModulesUpdate` instance: the `_classes` registry values in
insertion order and the `tasks` dict, mapping a module name to whether its
recorded task is `done()`. -/
structure FanState where
  classes : List ModuleCls
  tasks : List (String × Bool)
deriving DecidableEq, Repr

/-- Lookup in the `tasks` dict: `none` models absence of the key. -/
def tasksFind : List (String × Bool) → String → Option Bool
  | [], _ => none
  | (n, d) :: rest, m => if n = m then some d else tasksFind rest m

/-- Assignment `self.tasks[name] = task` in the `tasks` dict. -/
def tasksSet : List (String × Bool) → String → Bool → List (String × Bool)
  | [], m, d => [(m, d)]
  | (n, d0) :: rest, m, d =>
    if n = m then (n, d) :: rest else (n, d0) :: tasksSet rest m d

/-- The mutation `module_class.cls.sensors = sensors_data` applied to the
registry entry (entries) with the given name. -/
def classesInject (cs : List ModuleCls) (m : String) (snap : Nat) :
    List ModuleCls :=
  cs.map fun mc => if mc.name = m then { mc with sensors := some snap } else mc

/-- `self._classes[cls]` lookup, used by the generator over a forced
module subset; `none` models a `KeyError`. -/
def findCls : List ModuleCls → String → Option ModuleCls
  | [], _ => none
  | mc :: rest, m => if mc.name = m then some mc else findCls rest m

/-- One iteration of the `for module_class in classes` loop body of
`ModulesUpdate.update_data` (source lines 104-131): inject the snapshot if
the class has a `sensors` attribute, skip if a not-yet-done task is
registered (the `continue` also skips the stagger sleep), otherwise try to
start the task, record it as in flight, and stagger. `launchOk` tells
whether `asyncio.create_task` succeeds for the given module. -/
def processOne (launchOk : String → Bool) (snapshot : Nat) (st : FanState)
    (mc : ModuleCls) : List Ev × FanState :=
  let injected :=
    if mc.hasSensorsAttr then
      ([Ev.inject mc.name snapshot],
        { st with classes := classesInject st.classes mc.name snapshot })
    else (([] : List Ev), st)
  let evs1 := injected.fst
  let st1 := injected.snd
  if tasksFind st1.tasks mc.name = some false then
    (evs1 ++ [Ev.skipRunning mc.name], st1)
  else if launchOk mc.name then
    (evs1 ++ [Ev.launch mc.name, Ev.stagger],
      { st1 with tasks := tasksSet st1.tasks mc.name false })
  else
    (evs1 ++ [Ev.launchFailed mc.name, Ev.stagger], st1)

/-- The loop of `update_data` when no subset was forced: iterate over all
registry values in insertion order. -/
def processList (launchOk : String → Bool) (snapshot : Nat) :
    FanState → List ModuleCls → List Ev × FanState
  | st, [] => ([], st)
  | st, mc :: rest =>
    let r1 := processOne launchOk snapshot st mc
    let r2 := processList launchOk snapshot r1.snd rest
    (r1.fst ++ r2.fst, r2.snd)

/-- The loop of `update_data` driven by the lazy generator
`(self._classes[cls] for cls in modules)`: each name is looked up as the
loop reaches it; a missing name raises a `KeyError` that escapes the call
(the third component reports that the call raised). -/
def processNames (launchOk : String → Bool) (snapshot : Nat) :
    FanState → List String → List Ev × FanState × Bool
  | st, [] => ([], st, false)
  | st, n :: rest =>
    match findCls st.classes n with
    | none => ([], st, true)
    | some mc =>
      let r1 := processOne launchOk snapshot st mc
      let r2 := processNames launchOk snapshot r1.snd rest
      (r1.fst ++ r2.fst, r2.snd)

/-- `ModulesUpdate.update_data(modules)` (source lines 91-133).
`sensorsResult` is the outcome of `SensorsUpdate().update_all_data()`,
an opaque collaborator: on failure the exception escapes the call before
anything is published or launched (there is no try/except around it), so
the trace is empty and the third component reports that the call raised.
On success the snapshot is published under `"sensors"` and the module loop
runs; `if modules:` treats both `None` and the empty list as "all
modules". -/
def update_data (st : FanState) (sensorsResult : Except Unit Nat)
    (launchOk : String → Bool) (modules : Option (List String)) :
    List Ev × FanState × Bool :=
  match sensorsResult with
  | Except.error _ => ([], st, true)
  | Except.ok snapshot =>
    match modules with
    | some (n :: ns) =>
      let r := processNames launchOk snapshot st (n :: ns)
      (Ev.publish "sensors" snapshot :: r.fst, r.snd.fst, r.snd.snd)
    | _ =>
      let r := processList launchOk snapshot st st.classes
      (Ev.publish "sensors" snapshot :: r.fst, r.snd, false)

/-- The registry built in `ModulesUpdate.__init__`, in insertion order,
with a representative assignment of the `sensors` capability (the
displays module, for instance, exposes a `sensors` slot). -/
def exClasses : List ModuleCls :=
  [⟨"system", false, none⟩, ⟨"battery", false, none⟩, ⟨"cpu", true, none⟩,
   ⟨"disks", false, none⟩, ⟨"displays", true, none⟩, ⟨"gpus", true, none⟩,
   ⟨"memory", false, none⟩, ⟨"networks", false, none⟩,
   ⟨"processes", false, none⟩]

/-- A fresh coordinator state: full registry, empty task dict. -/
def exState : FanState := ⟨exClasses, []⟩

/-- Scanner deciding whether, in a tick trace, every launch of the
module named `m` is strictly preceded by an injection of the tick's
snapshot `snap` into that module; `seen` records whether such an
injection has been scanned already. -/
def injectSeen (m : String) (snap : Nat) : List Ev → Bool → Bool
  | [], _ => true
  | Ev.inject n s :: rest, seen =>
    injectSeen m snap rest (seen || (n == m && s == snap))
  | Ev.launch n :: rest, seen =>
    if n == m && !seen then false else injectSeen m snap rest seen
  | _ :: rest, seen => injectSeen m snap rest seen

/-- The value of the seen-flag after scanning a trace. -/
def seenAfter (m : String) (snap : Nat) : List Ev → Bool → Bool
  | [], seen => seen
  | Ev.inject n s :: rest, seen =>
    seenAfter m snap rest (seen || (n == m && s == snap))
  | _ :: rest, seen => seenAfter m snap rest seen

/-- Every registry entry named `m` declares the sensor capability
(exposes a `sensors` slot). -/
@[reducible] def namesAttrOk (m : String) (cs : List ModuleCls) : Prop :=
  ∀ mc ∈ cs, mc.name = m → mc.hasSensorsAttr = true

end Modules

namespace Sched

/-- A forced-request entry: an opaque encoding of the kwargs dict carried
through `update_queue`. -/
abbrev Params := Nat

/-- The empty dict `update_params = {}` used for a natural tick. -/
def emptyParams : Params := 0

/-- The four places where one loop iteration of `UpdateThread.run` (and
its `update_next_run` helper) reads the `stopping` flag: the `while`
guard (line 34), the check after the wait (line 49), the check inside
`update_next_run` (line 96), and the check after the update (line 62). -/
inductive Site where
  | guard
  | postWait
  | nextRunCheck
  | postUpdate
deriving DecidableEq, Repr

/-- Observable events of the scheduler loop. `stopObserved` is emitted
whenever a read of `stopping` returns true; `setNextRun` is the
assignment inside `update_next_run`; `runUpdate` is the invocation
`asyncio.new_event_loop().run_until_complete(self.update(**update_params))`
with its parameters and whether the tick was forced; `updateFailed` is
the logged except branch around that invocation. -/
inductive SEv where
  | stopObserved (site : Site)
  | setNextRun (t : Int)
  | runUpdate (params : Params) (forced : Bool)
  | updateFailed
deriving DecidableEq, Repr

/-- Worker state of an `UpdateThread`: the interval, the absolute
`next_run` time, the contents of `update_queue`, and a counter of how
many reads of `stopping` have happened (used to index the observation
stream). -/
structure SchedState where
  interval : Nat
  nextRun : Int
  queue : List Params
  rc : Nat
deriving DecidableEq, Repr

/-- Per-iteration environment: the clock reading at the sleep
computation (line 39), the requests put into the queue during this
iteration's wait, the clock reading inside `update_next_run` (line 98),
and whether `self.update(...)` completes without raising. -/
structure Env where
  now1 : Int
  arrivals : List Params
  now2 : Int
  updateOk : Bool
deriving DecidableEq, Repr

/-- The wait of lines 39-47: if `next_run` is still in the future, block
on `update_queue.get` with that timeout — an item already queued is
returned at once, otherwise the first request arriving within the wait
is returned, otherwise the wait times out (`Empty`). If `next_run` is
not in the future the queue is never consulted. Returns (triggered by
signal, params, queue after). -/
def waitForNext (st : SchedState) (env : Env) : Bool × Params × List Params :=
  if 0 < st.nextRun - env.now1 then
    match st.queue with
    | p :: rest => (true, p, rest ++ env.arrivals)
    | [] =>
      match env.arrivals with
      | p :: rest => (true, p, rest)
      | [] => (false, emptyParams, [])
  else (false, emptyParams, st.queue ++ env.arrivals)

/-- `UpdateThread.update_next_run` (lines 94-99): reads `stopping` and,
when it is clear, schedules `next_run = now + interval`; when it is set
it returns without rescheduling (and without exiting the loop). -/
def update_next_run (obs : Nat → Bool) (now2 : Int) (st : SchedState) :
    List SEv × SchedState :=
  if obs st.rc then
    ([SEv.stopObserved Site.nextRunCheck], { st with rc := st.rc + 1 })
  else
    ([SEv.setNextRun (now2 + (st.interval : Int))],
      { st with rc := st.rc + 1, nextRun := now2 + (st.interval : Int) })

/-- One iteration of the `while not self.stopping` loop of
`UpdateThread.run` (lines 34-65). `obs k` is the value the k-th read of
`stopping` returns. The third component tells whether the loop
continues with another iteration. -/
def iteration (obs : Nat → Bool) (env : Env) (st : SchedState) :
    List SEv × SchedState × Bool :=
  if obs st.rc then
    ([SEv.stopObserved Site.guard], { st with rc := st.rc + 1 }, false)
  else
    let st1 : SchedState := { st with rc := st.rc + 1 }
    let w := waitForNext st1 env
    let forced := w.fst
    let params := w.snd.fst
    let st2 : SchedState := { st1 with queue := w.snd.snd }
    if obs st2.rc then
      ([SEv.stopObserved Site.postWait], { st2 with rc := st2.rc + 1 }, false)
    else
      let st3 : SchedState := { st2 with rc := st2.rc + 1 }
      let r :=
        if forced then (([] : List SEv), st3)
        else update_next_run obs env.now2 st3
      let evs1 := r.fst
      let st4 := r.snd
      let evs2 :=
        if env.updateOk then [SEv.runUpdate params forced]
        else [SEv.runUpdate params forced, SEv.updateFailed]
      if obs st4.rc then
        (evs1 ++ evs2 ++ [SEv.stopObserved Site.postUpdate],
          { st4 with rc := st4.rc + 1 }, false)
      else
        (evs1 ++ evs2, { st4 with rc := st4.rc + 1 }, true)

/-- The whole `UpdateThread.run` loop, fed one environment per
iteration; it stops when an iteration reports that the loop exited. -/
def runLoop (obs : Nat → Bool) : List Env → SchedState → List SEv × SchedState
  | [], st => ([], st)
  | env :: envs, st =>
    let r := iteration obs env st
    if r.snd.snd then
      let r2 := runLoop obs envs r.snd.fst
      (r.fst ++ r2.fst, r2.snd)
    else (r.fst, r.snd.fst)

/-- Whether an event is a stop observation at one of the loop's three
exit checks — the `while` guard, the post-wait check, and the
post-update check — the reads of `stopping` whose true outcome makes
`run` return. The only read that does not exit is the one inside
`update_next_run`, which merely skips rescheduling. -/
def exitObserved : SEv → Bool
  | SEv.stopObserved Site.guard => true
  | SEv.stopObserved Site.postWait => true
  | SEv.stopObserved Site.postUpdate => true
  | _ => false

/-- A trace contains no exit-check stop observation. -/
def noExit (l : List SEv) : Bool := l.all (fun e => !exitObserved e)

/-- Every exit-check stop observation in a trace is its final event:
nothing — in particular no update-step invocation and no further tick —
follows it. -/
def exitIsFinal : List SEv → Bool
  | [] => true
  | e :: rest => if exitObserved e then rest.isEmpty else exitIsFinal rest

end Sched

namespace Handlers

/-- The positional-parameter shape of a Python callable (excluding
`self`): how many parameters it declares and how many of them have
defaults. -/
structure PySig where
  nparams : Nat
  ndefaults : Nat
deriving DecidableEq, Repr

/-- Whether a call with `nargs` positional arguments binds against a
signature; outside this range Python raises a `TypeError`. -/
def bindOk (sig : PySig) (nargs : Nat) : Bool :=
  decide (sig.nparams - sig.ndefaults ≤ nargs) && decide (nargs ≤ sig.nparams)

/-- `UpdateThread.__init__(self, interval, update_queue)`: two required
positional parameters. -/
def updateThreadInitSig : PySig := ⟨2, 0⟩

/-- `MediaUpdateThread.__init__(self, updated_callback)`: one required
positional parameter. -/
def mediaUpdateThreadInitSig : PySig := ⟨1, 0⟩

/-- `DataUpdateThread.__init__(self, updated_callback, update_queue)`:
two required positional parameters. -/
def dataUpdateThreadInitSig : PySig := ⟨2, 0⟩

/-- Python error outcomes relevant here. -/
inductive PyError where
  | typeError
deriving DecidableEq, Repr

/-- A constructed media worker (only the interval matters here). -/
structure MediaThreadObj where
  interval : Nat
deriving DecidableEq, Repr

/-- Constructing `MediaUpdateThread(...)` with `nargs` positional
arguments: the call must bind against `MediaUpdateThread.__init__`, and
its body then calls `super().__init__(UPDATE_INTERVAL)` — a single
positional argument — which must bind against
`UpdateThread.__init__(interval, update_queue)`. -/
def mediaUpdateThreadNew (nargs : Nat) : Except PyError MediaThreadObj :=
  if bindOk mediaUpdateThreadInitSig nargs then
    if bindOk updateThreadInitSig 1 then Except.ok ⟨20⟩
    else Except.error PyError.typeError
  else Except.error PyError.typeError

/-- The part of `DataUpdate`'s state that `request_update_media_data`
touches: the media thread reference, whether it is alive, and the media
queue. -/
structure DataUpdateState where
  mediaThreadAlive : Bool
  mediaThread : Option MediaThreadObj
  mediaQueue : List Nat
deriving DecidableEq, Repr

/-- `DataUpdate.request_update_media_data` (data.py lines 75-91): if the
media thread exists and is alive, log and return (nothing is enqueued);
otherwise construct
`MediaUpdateThread(self._data_updated_callback, self.update_media_queue)`
— two positional arguments — and start it. On success the second
component reports that a new worker was started. -/
def request_update_media_data (st : DataUpdateState) :
    Except PyError (DataUpdateState × Bool) :=
  if st.mediaThread.isSome && st.mediaThreadAlive then Except.ok (st, false)
  else
    match mediaUpdateThreadNew 2 with
    | Except.ok t =>
      Except.ok ({ st with mediaThread := some t, mediaThreadAlive := true }, true)
    | Except.error e => Except.error e

/-- Model of the external `systembridgemodels.modules.media.Media`
dataclass (aliased `MediaInfo`), an opaque collaborator: constructing it
as `MediaInfo(updated_at=ts)` sets only the timestamp and leaves every
other field at its `None` default. -/
structure MediaInfo where
  updated_at : Option Int := none
  title : Option String := none
  artist : Option String := none
  status : Option String := none
deriving DecidableEq, Repr

/-- Observable effects of a media tick routed through
`DataUpdate._data_updated_callback`: a write of one `State` field
(`setattr(self.data, name, data)`), the notification
(`await self._updated_callback(name)`), or the Windows media-session
query delegated to `Media.update_media_info`. -/
inductive DEv where
  | stateWrite (field : String) (payload : MediaInfo)
  | notify (field : String)
  | mediaSessionQuery
deriving DecidableEq, Repr

/-- `DataUpdate._data_updated_callback(name, data)` (data.py lines
39-51): overwrite the matching `State` field, then invoke the
notification with the field's name. -/
def data_updated_callback (name : String) (payload : MediaInfo) : List DEv :=
  [DEv.stateWrite name payload, DEv.notify name]

/-- `MediaUpdateThread.update` (media.py lines 38-51): return early when
stopping; on a platform that is not Windows (or when no media-session
class was set up) publish a `MediaInfo` carrying only the current
timestamp under the name `"media"`; otherwise delegate to the
media-session query. -/
def mediaThreadUpdate (stopping : Bool) (isWindows : Bool)
    (hasUpdateCls : Bool) (now : Int) : List DEv :=
  if stopping then []
  else if !isWindows || !hasUpdateCls then
    data_updated_callback "media" { updated_at := some now }
  else [DEv.mediaSessionQuery]

end Handlers

/-- C1 counterexample: with a fresh coordinator state and the forced
subset `["cpu"]`, the module `"cpu"` is launched when the sensor
snapshot collection succeeds, but when the sensor snapshot collection
raises, `"cpu"` is not launched in that tick — contradicting the claim
that every other module selected for the tick is still attempted. -/
theorem C1_counterexample :
    Modules.Ev.launch "cpu" ∈
      (Modules.update_data Modules.exState (Except.ok 7)
        (fun _ => true) (some ["cpu"])).fst
    ∧ Modules.Ev.launch "cpu" ∉
      (Modules.update_data Modules.exState (Except.error ())
        (fun _ => true) (some ["cpu"])).fst := by
  decide

/-- C1 (amended): if the synchronous sensor-snapshot collection raises,
the exception escapes `update_data` before anything is published or any
module is launched — the tick is aborted with an empty trace and an
unchanged coordinator state, so no module selected for that tick is
attempted (the exception is then caught at the scheduler boundary). -/
theorem C1_sensor_failure_aborts_tick (st : Modules.FanState)
    (launchOk : String → Bool) (modules : Option (List String)) (e : Unit) :
    Modules.update_data st (Except.error e) launchOk modules = ([], st, true) :=
  rfl

/-- C2: constructing the media worker always raises a `TypeError` —
`request_update_media_data` calls `MediaUpdateThread(callback, queue)`
with two positional arguments while `MediaUpdateThread.__init__` accepts
only `updated_callback` (and its own `super().__init__(UPDATE_INTERVAL)`
omits the `update_queue` parameter `UpdateThread.__init__` requires) —
so when the worker is not alive the call raises instead of starting a
worker; when the worker is already alive the call is a no-op that
enqueues nothing. -/
theorem C2_media_worker_construction_raises :
    Handlers.request_update_media_data ⟨false, none, []⟩ =
      Except.error Handlers.PyError.typeError
    ∧ Handlers.request_update_media_data ⟨true, some ⟨20⟩, []⟩ =
      Except.ok (⟨true, some ⟨20⟩, []⟩, false) :=
  ⟨rfl, rfl⟩

/-- C8: in every data tick, whatever modules the forced request
selected, the emitted trace is either empty (the sensor collection
raised, so nothing was launched at all) or begins with the publication
of the freshly collected sensor snapshot under the name `"sensors"` —
hence every module launch of the tick is preceded by that publish. -/
theorem C8_sensors_published_first (st : Modules.FanState)
    (sensorsResult : Except Unit Nat) (launchOk : String → Bool)
    (modules : Option (List String)) :
    (Modules.update_data st sensorsResult launchOk modules).fst = []
    ∨ ∃ snapshot rest, sensorsResult = Except.ok snapshot ∧
        (Modules.update_data st sensorsResult launchOk modules).fst =
          Modules.Ev.publish "sensors" snapshot :: rest := by
  cases sensorsResult with
  | error e => exact Or.inl rfl
  | ok snapshot =>
    cases modules with
    | none => exact Or.inr ⟨snapshot, _, rfl, rfl⟩
    | some ns =>
      cases ns with
      | nil => exact Or.inr ⟨snapshot, _, rfl, rfl⟩
      | cons n ns => exact Or.inr ⟨snapshot, _, rfl, rfl⟩

/-- C9: on a platform that is not Windows, a media tick that is not
already stopping performs exactly one `State` write, to the field
`"media"`, whose payload is a `MediaInfo` carrying only the current
timestamp (every other field left at its `None` default), followed by
exactly one notification with the name `"media"`. -/
theorem C9_media_tick_heartbeat (stopping isWindows hasUpdateCls : Bool)
    (now : Int) (hw : isWindows = false) (hs : stopping = false) :
    Handlers.mediaThreadUpdate stopping isWindows hasUpdateCls now =
      [Handlers.DEv.stateWrite "media" { updated_at := some now },
       Handlers.DEv.notify "media"] := by
  subst hw hs
  simp [Handlers.mediaThreadUpdate, Handlers.data_updated_callback]

/-- Witness for C9 at a concrete timestamp. -/
theorem C9_media_tick_heartbeat_witness :
    Handlers.mediaThreadUpdate false false true 42 =
      [Handlers.DEv.stateWrite "media" { updated_at := some 42 },
       Handlers.DEv.notify "media"] :=
  C9_media_tick_heartbeat false false true 42 rfl rfl

/-- C3: in an iteration of the scheduler loop in which `stopping` is
never observed set, a natural tick (the wait timed out, or the wait was
skipped because `next_run` was not in the future) first sets `next_run`
to `now + interval` and then invokes the update step with empty
parameters, while a forced tick (a request taken from the queue, or one
arriving during the wait) invokes the update step with the forced
parameters and leaves `next_run` unchanged. -/
theorem C3_natural_vs_forced_tick (obs : Nat → Bool) (env : Sched.Env)
    (st : Sched.SchedState) (hobs : ∀ k, obs k = false) :
    ((st.queue = [] ∧ env.arrivals = []) ∨ ¬ 0 < st.nextRun - env.now1 →
      (Sched.iteration obs env st).snd.fst.nextRun =
        env.now2 + (st.interval : Int)
      ∧ (Sched.iteration obs env st).fst.take 2 =
        [Sched.SEv.setNextRun (env.now2 + (st.interval : Int)),
         Sched.SEv.runUpdate Sched.emptyParams false])
    ∧ (∀ p rest, st.queue = p :: rest → 0 < st.nextRun - env.now1 →
      (Sched.iteration obs env st).snd.fst.nextRun = st.nextRun
      ∧ (Sched.iteration obs env st).fst.head? =
        some (Sched.SEv.runUpdate p true))
    ∧ (∀ p rest, st.queue = [] → env.arrivals = p :: rest →
        0 < st.nextRun - env.now1 →
      (Sched.iteration obs env st).snd.fst.nextRun = st.nextRun
      ∧ (Sched.iteration obs env st).fst.head? =
        some (Sched.SEv.runUpdate p true)) := by
  refine ⟨?_, ?_, ?_⟩
  · rintro (⟨hq, ha⟩ | hlt)
    · by_cases hpos : 0 < st.nextRun - env.now1 <;>
        cases hup : env.updateOk <;>
          simp [Sched.iteration, Sched.waitForNext, Sched.update_next_run,
            hobs, hq, ha, hpos, hup]
    · cases hup : env.updateOk <;>
        simp [Sched.iteration, Sched.waitForNext, Sched.update_next_run,
          hobs, hlt, hup]
  · intro p rest hq hpos
    cases hup : env.updateOk <;>
      simp [Sched.iteration, Sched.waitForNext, hobs, hq, hpos, hup]
  · intro p rest hq ha hpos
    cases hup : env.updateOk <;>
      simp [Sched.iteration, Sched.waitForNext, hobs, hq, ha, hpos, hup]

/-- Witness for C3 on a forced tick: interval 30, `next_run` 300, a
pending request `5`, clock at 200 — the update step runs with the
forced parameters and `next_run` stays 300. -/
theorem C3_natural_vs_forced_tick_witness :
    (((⟨30, 300, [5], 0⟩ : Sched.SchedState).queue = [] ∧
        (⟨200, [], 250, true⟩ : Sched.Env).arrivals = []) ∨
      ¬ (0 : Int) < (⟨30, 300, [5], 0⟩ : Sched.SchedState).nextRun -
        (⟨200, [], 250, true⟩ : Sched.Env).now1 →
      (Sched.iteration (fun _ => false) ⟨200, [], 250, true⟩
        ⟨30, 300, [5], 0⟩).snd.fst.nextRun = 250 + ((30 : Nat) : Int)
      ∧ (Sched.iteration (fun _ => false) ⟨200, [], 250, true⟩
        ⟨30, 300, [5], 0⟩).fst.take 2 =
        [Sched.SEv.setNextRun (250 + ((30 : Nat) : Int)),
         Sched.SEv.runUpdate Sched.emptyParams false])
    ∧ (∀ p rest, (⟨30, 300, [5], 0⟩ : Sched.SchedState).queue = p :: rest →
        (0 : Int) < (⟨30, 300, [5], 0⟩ : Sched.SchedState).nextRun -
          (⟨200, [], 250, true⟩ : Sched.Env).now1 →
      (Sched.iteration (fun _ => false) ⟨200, [], 250, true⟩
        ⟨30, 300, [5], 0⟩).snd.fst.nextRun = 300
      ∧ (Sched.iteration (fun _ => false) ⟨200, [], 250, true⟩
        ⟨30, 300, [5], 0⟩).fst.head? =
        some (Sched.SEv.runUpdate p true))
    ∧ (∀ p rest, (⟨30, 300, [5], 0⟩ : Sched.SchedState).queue = [] →
        (⟨200, [], 250, true⟩ : Sched.Env).arrivals = p :: rest →
        (0 : Int) < (⟨30, 300, [5], 0⟩ : Sched.SchedState).nextRun -
          (⟨200, [], 250, true⟩ : Sched.Env).now1 →
      (Sched.iteration (fun _ => false) ⟨200, [], 250, true⟩
        ⟨30, 300, [5], 0⟩).snd.fst.nextRun = 300
      ∧ (Sched.iteration (fun _ => false) ⟨200, [], 250, true⟩
        ⟨30, 300, [5], 0⟩).fst.head? =
        some (Sched.SEv.runUpdate p true)) :=
  C3_natural_vs_forced_tick (fun _ => false) ⟨200, [], 250, true⟩
    ⟨30, 300, [5], 0⟩ (fun _ => rfl)

/-- C7: an update-step failure is caught and logged, and the iteration
proceeds exactly as a successful one would — same successor state (so
the same next wait) and the loop continues; no exception raised by an
update step terminates the schedule. Stated for an iteration in which
`stopping` is never observed set. -/
theorem C7_update_failure_does_not_kill_schedule (obs : Nat → Bool)
    (env : Sched.Env) (st : Sched.SchedState) (hobs : ∀ k, obs k = false) :
    (Sched.iteration obs { env with updateOk := false } st).snd =
      (Sched.iteration obs { env with updateOk := true } st).snd
    ∧ Sched.SEv.updateFailed ∈
      (Sched.iteration obs { env with updateOk := false } st).fst
    ∧ (Sched.iteration obs { env with updateOk := false } st).snd.snd = true := by
  by_cases hpos : 0 < st.nextRun - env.now1
  · cases hq : st.queue with
    | nil =>
      cases ha : env.arrivals with
      | nil =>
        simp [Sched.iteration, Sched.waitForNext, Sched.update_next_run,
          hobs, hq, ha, hpos]
      | cons p rest =>
        simp [Sched.iteration, Sched.waitForNext, Sched.update_next_run,
          hobs, hq, ha, hpos]
    | cons p rest =>
      simp [Sched.iteration, Sched.waitForNext, Sched.update_next_run,
        hobs, hq, hpos]
  · simp [Sched.iteration, Sched.waitForNext, Sched.update_next_run,
      hobs, hpos]

/-- Witness for C7: a concrete iteration whose update step raises
leaves the same successor state as the successful run and continues. -/
theorem C7_update_failure_witness :
    (Sched.iteration (fun _ => false)
      { (⟨100, [], 150, true⟩ : Sched.Env) with updateOk := false }
      ⟨30, 90, [], 0⟩).snd =
      (Sched.iteration (fun _ => false)
        { (⟨100, [], 150, true⟩ : Sched.Env) with updateOk := true }
        ⟨30, 90, [], 0⟩).snd
    ∧ Sched.SEv.updateFailed ∈
      (Sched.iteration (fun _ => false)
        { (⟨100, [], 150, true⟩ : Sched.Env) with updateOk := false }
        ⟨30, 90, [], 0⟩).fst
    ∧ (Sched.iteration (fun _ => false)
        { (⟨100, [], 150, true⟩ : Sched.Env) with updateOk := false }
        ⟨30, 90, [], 0⟩).snd.snd = true :=
  C7_update_failure_does_not_kill_schedule (fun _ => false)
    ⟨100, [], 150, true⟩ ⟨30, 90, [], 0⟩ (fun _ => rfl)

/-- C10: in an iteration where `next_run` is not in the future, the
forced-request queue is not consulted: nothing already queued is
consumed (pending requests stay queued for a later iteration with a
positive wait), and the tick runs immediately as a natural tick — it
first advances `next_run` to `now + interval`, then invokes the update
step with empty parameters. Stated for an iteration in which `stopping`
is never observed set. -/
theorem C10_no_wait_skips_queue (obs : Nat → Bool) (env : Sched.Env)
    (st : Sched.SchedState) (hobs : ∀ k, obs k = false)
    (hlate : st.nextRun ≤ env.now1) :
    (Sched.iteration obs env st).snd.fst.queue = st.queue ++ env.arrivals
    ∧ (Sched.iteration obs env st).fst.take 2 =
      [Sched.SEv.setNextRun (env.now2 + (st.interval : Int)),
       Sched.SEv.runUpdate Sched.emptyParams false]
    ∧ (Sched.iteration obs env st).snd.fst.nextRun =
      env.now2 + (st.interval : Int) := by
  have hpos : ¬ 0 < st.nextRun - env.now1 := by omega
  cases hup : env.updateOk <;>
    simp [Sched.iteration, Sched.waitForNext, Sched.update_next_run,
      hobs, hpos, hup]

/-- Witness for C10: clock already past `next_run` with a request
pending — the request stays queued and the tick is natural. -/
theorem C10_no_wait_skips_queue_witness :
    (Sched.iteration (fun _ => false) ⟨200, [], 250, true⟩
      ⟨30, 100, [7], 0⟩).snd.fst.queue = [7] ++ ([] : List Sched.Params)
    ∧ (Sched.iteration (fun _ => false) ⟨200, [], 250, true⟩
      ⟨30, 100, [7], 0⟩).fst.take 2 =
      [Sched.SEv.setNextRun (250 + ((30 : Nat) : Int)),
       Sched.SEv.runUpdate Sched.emptyParams false]
    ∧ (Sched.iteration (fun _ => false) ⟨200, [], 250, true⟩
      ⟨30, 100, [7], 0⟩).snd.fst.nextRun = 250 + ((30 : Nat) : Int) :=
  C10_no_wait_skips_queue (fun _ => false) ⟨200, [], 250, true⟩
    ⟨30, 100, [7], 0⟩ (fun _ => rfl) (by decide)

/-- Appending after a trace free of exit-check stop observations leaves
`exitIsFinal` governed by the appended part. -/
theorem noExit_exitIsFinal_append (a b : List Sched.SEv)
    (ha : Sched.noExit a = true) :
    Sched.exitIsFinal (a ++ b) = Sched.exitIsFinal b := by
  induction a with
  | nil => rfl
  | cons e rest ih =>
    simp only [Sched.noExit, List.all_cons, Bool.and_eq_true,
      Bool.not_eq_true'] at ha
    simp only [List.cons_append, Sched.exitIsFinal, ha.1]
    simp only [Bool.false_eq_true, if_false]
    exact ih (by simp only [Sched.noExit]; exact ha.2)

/-- Shape of one iteration's trace: a continuing iteration emits no
exit-check stop observation at all, and an exiting iteration's trace
satisfies `exitIsFinal`. -/
theorem iteration_trace_shape (obs : Nat → Bool) (env : Sched.Env)
    (st : Sched.SchedState) :
    ((Sched.iteration obs env st).snd.snd = true →
      Sched.noExit (Sched.iteration obs env st).fst = true)
    ∧ ((Sched.iteration obs env st).snd.snd = false →
      Sched.exitIsFinal (Sched.iteration obs env st).fst = true) := by
  simp only [Sched.iteration, Sched.update_next_run]
  repeat' split
  all_goals constructor
  all_goals intro h
  all_goals
    first
      | (exfalso; simp at h; done)
      | simp [Sched.noExit, Sched.exitIsFinal, Sched.exitObserved]

/-- C5 counterexample: with interval 30, `next_run` at 100 and the
clock at 200, and `stopping` becoming set just before the third read
(the check inside `update_next_run`), the iteration observes the
stopping flag set — emitting the stop observation — and nevertheless
invokes the update step afterwards, contradicting the claim that once
`stopping` is observed set the loop returns without invoking the
update step again. -/
theorem C5_counterexample :
    (Sched.iteration (fun k => decide (2 ≤ k)) ⟨200, [], 201, true⟩
      ⟨30, 100, [], 0⟩).fst =
      [Sched.SEv.stopObserved Sched.Site.nextRunCheck,
       Sched.SEv.runUpdate Sched.emptyParams false,
       Sched.SEv.stopObserved Sched.Site.postUpdate] := by
  decide

/-- C5 (amended): once `stopping` is observed set at one of the loop's
own exit checks — the `while` guard, the post-wait check, or the
post-update check — the loop returns at once: in every execution trace
such an observation is the final event, so no update step is invoked
and no new tick begins after it, even if a forced request is pending in
the queue. The only read of `stopping` that does not exit is the one
inside `update_next_run`: it merely skips rescheduling, and that
iteration's update step still runs after it. -/
theorem C5_exit_check_is_final (obs : Nat → Bool) (envs : List Sched.Env)
    (st : Sched.SchedState) :
    Sched.exitIsFinal (Sched.runLoop obs envs st).fst = true := by
  induction envs generalizing st with
  | nil => rfl
  | cons env envs ih =>
    have hshape := iteration_trace_shape obs env st
    simp only [Sched.runLoop]
    by_cases hc : (Sched.iteration obs env st).snd.snd = true
    · simp only [hc, if_true]
      rw [noExit_exitIsFinal_append _ _ (hshape.1 hc)]
      exact ih _
    · have hc' : (Sched.iteration obs env st).snd.snd = false := by
        simpa using hc
      simp only [hc', Bool.false_eq_true, if_false]
      exact hshape.2 hc'

/-- Scanning a concatenation: scan the first part, then the second with
the seen-flag the first part produced. -/
theorem injectSeen_append (m : String) (snap : Nat) (a b : List Modules.Ev)
    (s : Bool) :
    Modules.injectSeen m snap (a ++ b) s =
      (Modules.injectSeen m snap a s &&
        Modules.injectSeen m snap b (Modules.seenAfter m snap a s)) := by
  induction a generalizing s with
  | nil => simp [Modules.injectSeen, Modules.seenAfter]
  | cons e rest ih =>
    cases e with
    | publish n p => simpa [Modules.injectSeen, Modules.seenAfter] using ih s
    | inject n s0 => simpa [Modules.injectSeen, Modules.seenAfter] using ih _
    | skipRunning n => simpa [Modules.injectSeen, Modules.seenAfter] using ih s
    | launch n =>
      by_cases hc : (n == m && !s) = true
      · simp [Modules.injectSeen, Modules.seenAfter, hc]
      · simp [Modules.injectSeen, Modules.seenAfter, hc, ih]
    | launchFailed n =>
      simpa [Modules.injectSeen, Modules.seenAfter] using ih s
    | stagger => simpa [Modules.injectSeen, Modules.seenAfter] using ih s

/-- Scanning past a publish event leaves the scan unchanged. -/
theorem injectSeen_publish (m : String) (snap : Nat) (n : String) (p : Nat)
    (rest : List Modules.Ev) (s : Bool) :
    Modules.injectSeen m snap (Modules.Ev.publish n p :: rest) s =
      Modules.injectSeen m snap rest s := rfl

/-- One loop-body step never launches a module with a declared sensor
capability before injecting the tick's snapshot: its event chunk passes
the `injectSeen` scan from any starting flag. -/
theorem processOne_injectSeen (launchOk : String → Bool) (snap : Nat)
    (st : Modules.FanState) (mc : Modules.ModuleCls) (m : String)
    (hattr : mc.name = m → mc.hasSensorsAttr = true) (s : Bool) :
    Modules.injectSeen m snap
      (Modules.processOne launchOk snap st mc).fst s = true := by
  by_cases hnm : mc.name = m
  · have ha : mc.hasSensorsAttr = true := hattr hnm
    subst hnm
    by_cases hskip :
        Modules.tasksFind st.tasks mc.name = some false <;>
      by_cases hl : launchOk mc.name = true <;>
        simp [Modules.processOne, ha, hskip, hl, Modules.injectSeen]
  · have hb : (mc.name == m) = false := by
      simp only [beq_eq_false_iff_ne, ne_eq]; exact hnm
    by_cases hs : mc.hasSensorsAttr = true <;>
      by_cases hskip :
          Modules.tasksFind st.tasks mc.name = some false <;>
        by_cases hl : launchOk mc.name = true <;>
          simp [Modules.processOne, hs, hskip, hl, Modules.injectSeen, hb]

/-- `classesInject` only writes the `sensors` slot, so the sensor
capability of entries named `m` is preserved. -/
theorem namesAttrOk_classesInject (m n : String) (snap : Nat)
    (cs : List Modules.ModuleCls) (h : Modules.namesAttrOk m cs) :
    Modules.namesAttrOk m (Modules.classesInject cs n snap) := by
  intro mc hmc hname
  rw [Modules.classesInject, List.mem_map] at hmc
  obtain ⟨mc0, hmem, hmap⟩ := hmc
  by_cases h0 : mc0.name = n
  · rw [if_pos h0] at hmap
    subst hmap
    exact h mc0 hmem hname
  · rw [if_neg h0] at hmap
    subst hmap
    exact h mc0 hmem hname

/-- One loop-body step preserves the sensor-capability property of the
registry. -/
theorem processOne_namesAttrOk (launchOk : String → Bool) (snap : Nat)
    (st : Modules.FanState) (mc : Modules.ModuleCls) (m : String)
    (h : Modules.namesAttrOk m st.classes) :
    Modules.namesAttrOk m
      (Modules.processOne launchOk snap st mc).snd.classes := by
  by_cases hs : mc.hasSensorsAttr = true <;>
    by_cases hskip : Modules.tasksFind st.tasks mc.name = some false <;>
      by_cases hl : launchOk mc.name = true <;>
        simp [Modules.processOne, hs, hskip, hl] <;>
          first
            | exact namesAttrOk_classesInject m mc.name snap st.classes h
            | exact h

/-- `findCls` returns an element of the registry list. -/
theorem findCls_mem (cs : List Modules.ModuleCls) (n : String)
    (mc : Modules.ModuleCls) (h : Modules.findCls cs n = some mc) :
    mc ∈ cs := by
  induction cs with
  | nil => simp [Modules.findCls] at h
  | cons c rest ih =>
    rw [Modules.findCls] at h
    by_cases hc : c.name = n
    · rw [if_pos hc] at h
      exact (Option.some_inj.mp h) ▸ List.mem_cons_self c rest
    · rw [if_neg hc] at h
      exact List.mem_cons_of_mem c (ih h)

/-- The all-modules loop passes the `injectSeen` scan from any starting
flag, provided every iterated entry named `m` declares the capability. -/
theorem processList_injectSeen (launchOk : String → Bool) (snap : Nat)
    (l : List Modules.ModuleCls) (st : Modules.FanState) (m : String)
    (hl : ∀ mc ∈ l, mc.name = m → mc.hasSensorsAttr = true) (s : Bool) :
    Modules.injectSeen m snap
      (Modules.processList launchOk snap st l).fst s = true := by
  induction l generalizing st s with
  | nil => rfl
  | cons mc rest ih =>
    rw [Modules.processList, injectSeen_append]
    rw [processOne_injectSeen launchOk snap st mc m
      (hl mc (List.mem_cons_self mc rest))]
    rw [Bool.true_and]
    exact ih _ (fun mc' h' => hl mc' (List.mem_cons_of_mem mc h')) _

/-- The forced-subset loop passes the `injectSeen` scan from any
starting flag, provided the registry satisfies the capability
property. -/
theorem processNames_injectSeen (launchOk : String → Bool) (snap : Nat)
    (names : List String) (st : Modules.FanState) (m : String)
    (h : Modules.namesAttrOk m st.classes) (s : Bool) :
    Modules.injectSeen m snap
      (Modules.processNames launchOk snap st names).fst s = true := by
  induction names generalizing st s with
  | nil => rfl
  | cons n rest ih =>
    rw [Modules.processNames]
    cases hf : Modules.findCls st.classes n with
    | none => rfl
    | some mc =>
      simp only []
      rw [injectSeen_append]
      rw [processOne_injectSeen launchOk snap st mc m
        (h mc (findCls_mem st.classes n mc hf))]
      rw [Bool.true_and]
      exact ih _ (processOne_namesAttrOk launchOk snap st mc m h) _

/-- C4: in every data tick whose sensor collection yielded a snapshot,
and for every module name `m` whose registry entries declare a sensor
dependency, the freshly collected snapshot is injected into the module
before the module is launched — including when the forced request named
a subset of modules: the tick trace passes the `injectSeen` scan with
an initially clear flag. -/
theorem C4_snapshot_injected_before_launch (st : Modules.FanState)
    (snapshot : Nat) (launchOk : String → Bool)
    (modules : Option (List String)) (m : String)
    (hattr : Modules.namesAttrOk m st.classes) :
    Modules.injectSeen m snapshot
      (Modules.update_data st (Except.ok snapshot) launchOk modules).fst
      false = true := by
  cases modules with
  | none =>
    rw [show (Modules.update_data st (Except.ok snapshot) launchOk none).fst =
        Modules.Ev.publish "sensors" snapshot ::
          (Modules.processList launchOk snapshot st st.classes).fst from rfl]
    rw [injectSeen_publish]
    exact processList_injectSeen launchOk snapshot st.classes st m hattr false
  | some ns =>
    cases ns with
    | nil =>
      rw [show (Modules.update_data st (Except.ok snapshot) launchOk
            (some [])).fst =
          Modules.Ev.publish "sensors" snapshot ::
            (Modules.processList launchOk snapshot st st.classes).fst from rfl]
      rw [injectSeen_publish]
      exact processList_injectSeen launchOk snapshot st.classes st m hattr false
    | cons n ns =>
      rw [show (Modules.update_data st (Except.ok snapshot) launchOk
            (some (n :: ns))).fst =
          Modules.Ev.publish "sensors" snapshot ::
            (Modules.processNames launchOk snapshot st (n :: ns)).fst from rfl]
      rw [injectSeen_publish]
      exact processNames_injectSeen launchOk snapshot (n :: ns) st m hattr false

/-- Writing another module's registry entry leaves `m`'s entry alone. -/
theorem tasksFind_tasksSet_ne (t : List (String × Bool)) (n m : String)
    (d : Bool) (h : n ≠ m) :
    Modules.tasksFind (Modules.tasksSet t n d) m = Modules.tasksFind t m := by
  induction t with
  | nil => simp [Modules.tasksSet, Modules.tasksFind, h]
  | cons p rest ih =>
    obtain ⟨n0, d0⟩ := p
    by_cases h0 : n0 = n
    · subst h0
      simp [Modules.tasksSet, Modules.tasksFind, h]
    · simp [Modules.tasksSet, Modules.tasksFind, h0, ih]

/-- One loop-body step while module `m`'s registry entry holds a
not-yet-done task: `m` is never launched, its entry is left pending, and
when the step is for `m` itself only the skip is logged. -/
theorem processOne_skip (launchOk : String → Bool) (snap : Nat)
    (st : Modules.FanState) (mc : Modules.ModuleCls) (m : String)
    (hrun : Modules.tasksFind st.tasks m = some false) :
    Modules.Ev.launch m ∉ (Modules.processOne launchOk snap st mc).fst
    ∧ Modules.tasksFind
        (Modules.processOne launchOk snap st mc).snd.tasks m = some false
    ∧ (mc.name = m →
        Modules.Ev.skipRunning m ∈
          (Modules.processOne launchOk snap st mc).fst) := by
  by_cases hnm : mc.name = m
  · subst hnm
    by_cases hs : mc.hasSensorsAttr = true <;>
      simp [Modules.processOne, hs, hrun]
  · have hnm' : ¬ m = mc.name := fun h => hnm h.symm
    by_cases hs : mc.hasSensorsAttr = true <;>
      by_cases hskip : Modules.tasksFind st.tasks mc.name = some false <;>
        by_cases hl : launchOk mc.name = true <;>
          simp [Modules.processOne, hs, hskip, hl, hrun, hnm, hnm',
            tasksFind_tasksSet_ne st.tasks mc.name m false hnm]

/-- The all-modules loop while module `m`'s registry entry holds a
not-yet-done task: `m` is never launched, its entry stays pending, and if
`m` is among the iterated entries its skip is logged. -/
theorem processList_skip (launchOk : String → Bool) (snap : Nat)
    (l : List Modules.ModuleCls) (st : Modules.FanState) (m : String)
    (hrun : Modules.tasksFind st.tasks m = some false) :
    Modules.Ev.launch m ∉ (Modules.processList launchOk snap st l).fst
    ∧ Modules.tasksFind
        (Modules.processList launchOk snap st l).snd.tasks m = some false
    ∧ ((∃ mc ∈ l, mc.name = m) →
        Modules.Ev.skipRunning m ∈
          (Modules.processList launchOk snap st l).fst) := by
  induction l generalizing st with
  | nil => exact ⟨by simp [Modules.processList], hrun, by simp⟩
  | cons mc rest ih =>
    have h1 := processOne_skip launchOk snap st mc m hrun
    have h2 := ih _ h1.2.1
    have hfst : (Modules.processList launchOk snap st (mc :: rest)).fst =
        (Modules.processOne launchOk snap st mc).fst ++
          (Modules.processList launchOk snap
            (Modules.processOne launchOk snap st mc).snd rest).fst := rfl
    have hsnd : (Modules.processList launchOk snap st (mc :: rest)).snd =
        (Modules.processList launchOk snap
          (Modules.processOne launchOk snap st mc).snd rest).snd := rfl
    refine ⟨?_, ?_, ?_⟩
    · rw [hfst]
      intro hmem
      rcases List.mem_append.mp hmem with hmem | hmem
      · exact h1.1 hmem
      · exact h2.1 hmem
    · rw [hsnd]
      exact h2.2.1
    · rintro ⟨mc', hmc', hname⟩
      rw [hfst]
      rcases List.mem_cons.mp hmc' with rfl | hmc'
      · exact List.mem_append.mpr (Or.inl (h1.2.2 hname))
      · exact List.mem_append.mpr (Or.inr (h2.2.2 ⟨mc', hmc', hname⟩))

/-- The forced-subset loop while module `m`'s registry entry holds a
not-yet-done task: `m` is never launched and its entry stays pending. -/
theorem processNames_skip (launchOk : String → Bool) (snap : Nat)
    (names : List String) (st : Modules.FanState) (m : String)
    (hrun : Modules.tasksFind st.tasks m = some false) :
    Modules.Ev.launch m ∉ (Modules.processNames launchOk snap st names).fst
    ∧ Modules.tasksFind
        (Modules.processNames launchOk snap st names).snd.fst.tasks m =
          some false := by
  induction names generalizing st with
  | nil => exact ⟨by simp [Modules.processNames], hrun⟩
  | cons n rest ih =>
    cases hf : Modules.findCls st.classes n with
    | none =>
      refine ⟨?_, ?_⟩ <;> simp [Modules.processNames, hf, hrun]
    | some mc =>
      have h1 := processOne_skip launchOk snap st mc m hrun
      have h2 := ih _ h1.2.1
      refine ⟨?_, ?_⟩ <;> simp only [Modules.processNames, hf]
      · intro hmem
        rcases List.mem_append.mp hmem with hmem | hmem
        · exact h1.1 hmem
        · exact h2.1 hmem
      · exact h2.2

/-- C6: in a data tick whose sensor collection succeeded, a module whose
registry entry still holds a not-yet-done task is not launched again —
whatever subset the tick selects — its entry is left pending (so it
becomes launchable only once that task completes and no early retry is
scheduled), and on an all-modules tick with the module registered the
skip is logged. -/
theorem C6_in_flight_task_not_relaunched (st : Modules.FanState)
    (snapshot : Nat) (launchOk : String → Bool)
    (mods : Option (List String)) (m : String)
    (hrun : Modules.tasksFind st.tasks m = some false) :
    Modules.Ev.launch m ∉
      (Modules.update_data st (Except.ok snapshot) launchOk mods).fst
    ∧ Modules.tasksFind
        (Modules.update_data st (Except.ok snapshot) launchOk
          mods).snd.fst.tasks m = some false
    ∧ (mods = none → (∃ mc ∈ st.classes, mc.name = m) →
        Modules.Ev.skipRunning m ∈
          (Modules.update_data st (Except.ok snapshot) launchOk mods).fst) := by
  cases mods with
  | none =>
    have h := processList_skip launchOk snapshot st.classes st m hrun
    have hfst : (Modules.update_data st (Except.ok snapshot) launchOk
        none).fst =
        Modules.Ev.publish "sensors" snapshot ::
          (Modules.processList launchOk snapshot st st.classes).fst := rfl
    refine ⟨?_, h.2.1, ?_⟩
    · rw [hfst]
      intro hmem
      rcases List.mem_cons.mp hmem with heq | hmem
      · simp at heq
      · exact h.1 hmem
    · intro _ hex
      rw [hfst]
      exact List.mem_cons_of_mem _ (h.2.2 hex)
  | some ns =>
    cases ns with
    | nil =>
      have h := processList_skip launchOk snapshot st.classes st m hrun
      have hfst : (Modules.update_data st (Except.ok snapshot) launchOk
          (some [])).fst =
          Modules.Ev.publish "sensors" snapshot ::
            (Modules.processList launchOk snapshot st st.classes).fst := rfl
      refine ⟨?_, h.2.1, ?_⟩
      · rw [hfst]
        intro hmem
        rcases List.mem_cons.mp hmem with heq | hmem
        · simp at heq
        · exact h.1 hmem
      · intro hc
        simp at hc
    | cons n rest' =>
      have h := processNames_skip launchOk snapshot (n :: rest') st m hrun
      have hfst : (Modules.update_data st (Except.ok snapshot) launchOk
          (some (n :: rest'))).fst =
          Modules.Ev.publish "sensors" snapshot ::
            (Modules.processNames launchOk snapshot st (n :: rest')).fst := rfl
      refine ⟨?_, h.2, ?_⟩
      · rw [hfst]
        intro hmem
        rcases List.mem_cons.mp hmem with heq | hmem
        · simp at heq
        · exact h.1 hmem
      · intro hc
        simp at hc

/-- Witness for C6: an all-modules tick while a `"cpu"` task is still in
flight. -/
theorem C6_in_flight_witness :
    Modules.Ev.launch "cpu" ∉
      (Modules.update_data ⟨Modules.exClasses, [("cpu", false)]⟩
        (Except.ok 3) (fun _ => true) none).fst
    ∧ Modules.tasksFind
        (Modules.update_data ⟨Modules.exClasses, [("cpu", false)]⟩
          (Except.ok 3) (fun _ => true) none).snd.fst.tasks "cpu" =
        some false
    ∧ ((none : Option (List String)) = none →
        (∃ mc ∈ (⟨Modules.exClasses, [("cpu", false)]⟩ :
            Modules.FanState).classes, mc.name = "cpu") →
        Modules.Ev.skipRunning "cpu" ∈
          (Modules.update_data ⟨Modules.exClasses, [("cpu", false)]⟩
            (Except.ok 3) (fun _ => true) none).fst) :=
  C6_in_flight_task_not_relaunched ⟨Modules.exClasses, [("cpu", false)]⟩ 3
    (fun _ => true) none "cpu" (by decide)

/-- Witness for C4: the `"displays"` module (which declares the sensor
capability) on a forced single-module tick with snapshot 7. -/
theorem C4_snapshot_injected_witness :
    Modules.injectSeen "displays" 7
      (Modules.update_data Modules.exState (Except.ok 7) (fun _ => true)
        (some ["displays"])).fst false = true :=
  C4_snapshot_injected_before_launch Modules.exState 7 (fun _ => true)
    (some ["displays"]) "displays" (by decide)
